import Mathlib

/-!
Verification development for the insurance Graph-RAG repository.

Shallow embedding of the two core engines:
* `GraphRag`   — the in-memory property-graph query executor and intent
  pipeline of `src/graph_rag_query_processor.py`;
* `SchemaEvo`  — the versioned schema-evolution engine of
  `src/self_evolving_graph_schema.py`.

Conventions of the embedding:
* Python dicts with a fixed field set become structures; dict accesses via
  `.get(k)` (which cannot raise) become total fields, while `d['k']`
  subscripts on the untyped path-step dicts (which raise `KeyError`) become
  `Option` fields read through the `Except` monad, so that the
  try/except boundary of `execute_graph_query` is observable.
* Python floats are modelled as `ℚ`; machine strings as `String`;
  insertion-ordered dicts as association lists with replace-on-update.
-/

namespace GraphRag

/-- Property values stored on graph nodes: the scenarios and filters of the
repository only ever store strings and integers (Python `str` / `int`). -/
inductive Value where
  | str (s : String)
  | int (n : Int)
deriving DecidableEq, Repr

/-- Insertion-ordered dictionary lookup (Python `d[k]` / `k in d`). -/
def dictGet {β : Type} : List (String × β) → String → Option β
  | [], _ => none
  | (k, v) :: rest, key => if k = key then some v else dictGet rest key

/-- Insertion-ordered dictionary update: Python `d[k] = v` replaces an
existing entry in place and appends a fresh key at the end. -/
def dictSet {β : Type} : List (String × β) → String → β → List (String × β)
  | [], key, v => [(key, v)]
  | (k, w) :: rest, key, v =>
      if k = key then (key, v) :: rest else (k, w) :: dictSet rest key v

/-- Node payload: `labels` list and property map, as stored by
`knowledge_graph.add_node(node_id, labels=…, properties=…)`. -/
structure NodeData where
  labels : List String
  properties : List (String × Value)
deriving DecidableEq, Repr

/-- One directed multigraph edge; `key` is the relationship type, exactly as
`add_edge(source, target, key=rel_type, type=rel_type, …)` stores it. -/
structure Edge where
  source : String
  target : String
  key : String
deriving DecidableEq, Repr

/-- The in-memory knowledge graph (`nx.MultiDiGraph`): nodes in insertion
order with their data, and the edge list in insertion order. -/
structure Graph where
  nodes : List (String × NodeData)
  edges : List Edge
deriving DecidableEq, Repr

/-- A simple filter dict `{node, property, operator, value}`. -/
structure SimpleFilter where
  node : String
  property : String
  operator : String
  value : Value
deriving DecidableEq, Repr

/-- A filter list entry: either a simple filter or a compound
`{operator: AND|OR, conditions: […]}` dict, which carries no `node` key. -/
inductive Filter where
  | simple (f : SimpleFilter)
  | compound (operator : String) (conditions : List SimpleFilter)
deriving DecidableEq, Repr

/-- A `start_nodes` entry `{label, alias}` (read with `.get`, never raises). -/
structure StartSpec where
  label : String
  aliasName : String
deriving DecidableEq, Repr

/-- A `return_properties` entry `{node, property}`. -/
structure RetProp where
  node : String
  property : String
deriving DecidableEq, Repr

/-- A path step.  The source reads these fields with raising subscripts
(`path_spec['from']['alias']`, `path_spec['relationship']['type']`,
`path_spec['to']['label']`, …), so a missing field is representable and
surfaces as an execution fault. -/
structure PathSpec where
  fromAlias : Option String
  fromLabel : Option String
  toAlias : Option String
  toLabel : Option String
  relType : Option String
  relDirection : Option String
deriving DecidableEq, Repr

/-- The declarative graph-query dict produced by `build_graph_query`. -/
structure GraphQuery where
  start_nodes : List StartSpec
  paths : List PathSpec
  filters : List Filter
  return_properties : List RetProp
  is_procedural : Bool
  procedural_data : List (String × String)
deriving DecidableEq, Repr

/-- One executor binding: the alias → (node id, node data) assignment dict
plus the ordered `'path'` trace of (alias, node id) pairs. -/
structure Binding where
  assign : List (String × (String × NodeData))
  trace : List (String × String)
deriving DecidableEq, Repr

/-- Per-path result entry `{nodes, properties}`. -/
structure PathResult where
  nodes : List (String × String)
  properties : List (String × Value)
deriving DecidableEq, Repr

/-- The result dict of `execute_graph_query`.  Optional keys of the Python
dict are `Option`/defaulted fields: a normal result carries no `error` key,
the catch-all error result carries `count = 0`, empty `properties` and the
exception message.  The initialised `nodes` and `matched_filters` keys,
which the source never populates, are omitted. -/
structure QueryResults where
  count : Nat := 0
  properties : List (String × List Value) := []
  resultPaths : List PathResult := []
  error : Option String := none
  procedural : Option (List (String × String)) := none
deriving DecidableEq, Repr

/-- Lift a raising dict subscript: `none` becomes the exception carried to
the `except` block. -/
def req {α : Type} (o : Option α) (msg : String) : Except String α :=
  match o with
  | some a => Except.ok a
  | none => Except.error msg

/-- Python `str.lower()` (the query values are ASCII). -/
def strLower (s : String) : String := String.mk (s.data.map Char.toLower)

/-- Operator evaluation for filters applied to START nodes
(`graph_rag_query_processor.py` lines 908-926): string `=` is
case-insensitive; `>`/`<` require a numeric property value and raise
`TypeError` when the comparison right-hand side is a string; an
unrecognised operator leaves the node accepted (no `elif` branch fires). -/
def evalOpStart (op : String) (pv fv : Value) : Except String Bool :=
  if op = "=" then
    match pv, fv with
    | Value.str a, Value.str b => Except.ok (strLower a = strLower b)
    | _, _ => Except.ok (pv = fv)
  else if op = "!=" then Except.ok (pv ≠ fv)
  else if op = ">" then
    match pv, fv with
    | Value.int a, Value.int b => Except.ok (b < a)
    | Value.int _, Value.str _ => Except.error "TypeError: int > str"
    | Value.str _, _ => Except.ok false
  else if op = "<" then
    match pv, fv with
    | Value.int a, Value.int b => Except.ok (a < b)
    | Value.int _, Value.str _ => Except.error "TypeError: int < str"
    | Value.str _, _ => Except.ok false
  else Except.ok true

/-- Operator evaluation for filters applied to PATH-EXTENDED nodes
(lines 1059-1071): identical to `evalOpStart` except that `=` is the plain
(case-sensitive) equality `property_value != filter_value`. -/
def evalOpPath (op : String) (pv fv : Value) : Except String Bool :=
  if op = "=" then Except.ok (pv = fv)
  else if op = "!=" then Except.ok (pv ≠ fv)
  else if op = ">" then
    match pv, fv with
    | Value.int a, Value.int b => Except.ok (b < a)
    | Value.int _, Value.str _ => Except.error "TypeError: int > str"
    | Value.str _, _ => Except.ok false
  else if op = "<" then
    match pv, fv with
    | Value.int a, Value.int b => Except.ok (a < b)
    | Value.int _, Value.str _ => Except.error "TypeError: int < str"
    | Value.str _, _ => Except.ok false
  else Except.ok true

/-- The filter loop shared by both stages (lines 888-927 and 1038-1072),
parameterised by the operator semantics.  A compound filter is skipped
because `filter_spec.get('node')` yields `None ≠ alias`; a simple filter
is skipped when its `node` differs from the alias or its operator is
`AND`/`OR`; a missing property rejects the node; the first failing filter
breaks the loop. -/
def nodeOk (evalOp : String → Value → Value → Except String Bool)
    (aliasName : String) (props : List (String × Value)) :
    List Filter → Except String Bool
  | [] => Except.ok true
  | Filter.compound _ _ :: rest => nodeOk evalOp aliasName props rest
  | Filter.simple f :: rest =>
      if f.node ≠ aliasName then nodeOk evalOp aliasName props rest
      else if f.operator = "AND" ∨ f.operator = "OR" then
        nodeOk evalOp aliasName props rest
      else
        match dictGet props f.property with
        | none => Except.ok false
        | some pv => do
            let b ← evalOp f.operator pv f.value
            if b then nodeOk evalOp aliasName props rest else Except.ok false

/-- Start-node filtering (lines 887-929), keeping the nodes that pass. -/
def filterStartNodes (filters : List Filter) (aliasName : String) :
    List (String × NodeData) → Except String (List (String × NodeData))
  | [] => Except.ok []
  | (nid, nd) :: rest => do
      let ok ← nodeOk evalOpStart aliasName nd.properties filters
      let rest' ← filterStartNodes filters aliasName rest
      if ok then Except.ok ((nid, nd) :: rest') else Except.ok rest'

/-- Path-extended-node filtering (lines 1036-1074). -/
def filterPathNodes (filters : List Filter) (toAlias : String) :
    List (String × NodeData) → Except String (List (String × NodeData))
  | [] => Except.ok []
  | (nid, nd) :: rest => do
      let ok ← nodeOk evalOpPath toAlias nd.properties filters
      let rest' ← filterPathNodes filters toAlias rest
      if ok then Except.ok ((nid, nd) :: rest') else Except.ok rest'

/-- Raising node-store subscript `self.knowledge_graph.nodes[node_id]`. -/
def getNodeData (g : Graph) (nid : String) : Except String NodeData :=
  req (dictGet g.nodes nid) "KeyError: node not in graph"

/-- Resolve a list of neighbour ids against the node store; the list
comprehensions of lines 999-1025 evaluate these subscripts eagerly. -/
def mapGetNodes (g : Graph) : List String → Except String (List (String × NodeData))
  | [] => Except.ok []
  | nid :: rest => do
      let nd ← getNodeData g nid
      let rest' ← mapGetNodes g rest
      Except.ok ((nid, nd) :: rest')

/-- Neighbour discovery for one bound node (lines 996-1025): `outgoing`
follows out-edges whose key equals the relationship type, `incoming`
follows in-edges, and any other direction string is the `else` branch that
concatenates the outgoing and then the incoming neighbours. -/
def connectedNodes (g : Graph) (fromId relType relDirection : String) :
    Except String (List (String × NodeData)) :=
  let outIds := (g.edges.filter fun e =>
    decide (e.source = fromId ∧ e.key = relType)).map Edge.target
  let inIds := (g.edges.filter fun e =>
    decide (e.target = fromId ∧ e.key = relType)).map Edge.source
  if relDirection = "outgoing" then mapGetNodes g outIds
  else if relDirection = "incoming" then mapGetNodes g inIds
  else mapGetNodes g (outIds ++ inIds)

/-- Extensions contributed by one current binding during a path step
(body of the `for current_path in current_paths` loop, lines 982-1081):
a binding without the step's `from` alias is skipped (`continue`),
otherwise neighbours are discovered, restricted to the `to` label
(`path_spec['to']['label']` — a raising access), filtered, and each
survivor yields one new binding with the alias bound (overwriting) and the
trace extended. -/
def bindingExtensions (g : Graph) (filters : List Filter) (step : PathSpec)
    (fromAlias toAlias relType relDirection : String) (b : Binding) :
    Except String (List Binding) :=
  match dictGet b.assign fromAlias with
  | none => Except.ok []
  | some (fromId, _) => do
      let conn ← connectedNodes g fromId relType relDirection
      let toLabel ← req step.toLabel "KeyError: label"
      let labelled := conn.filter fun p => p.2.labels.contains toLabel
      let surviving ← filterPathNodes filters toAlias labelled
      Except.ok (surviving.map fun p =>
        { assign := dictSet b.assign toAlias (p.1, p.2),
          trace := b.trace ++ [(toAlias, p.1)] })

/-- The loop over `current_paths` for one path step: every binding's
extensions are appended to `next_paths` in binding order. -/
def stepLoop (g : Graph) (filters : List Filter) (step : PathSpec)
    (fromAlias toAlias relType relDirection : String) :
    List Binding → Except String (List Binding)
  | [] => Except.ok []
  | b :: rest =>
      match bindingExtensions g filters step fromAlias toAlias relType relDirection b with
      | Except.error m => Except.error m
      | Except.ok ext =>
          match stepLoop g filters step fromAlias toAlias relType relDirection rest with
          | Except.error m => Except.error m
          | Except.ok rest' => Except.ok (ext ++ rest')

/-- One path step (lines 974-1083): the four raising field reads happen
before the binding loop, exactly as in the source. -/
def execStep (g : Graph) (filters : List Filter) (step : PathSpec)
    (bs : List Binding) : Except String (List Binding) := do
  let fa ← req step.fromAlias "KeyError: from"
  let ta ← req step.toAlias "KeyError: to"
  let rt ← req step.relType "KeyError: type"
  let rd ← req step.relDirection "KeyError: direction"
  stepLoop g filters step fa ta rt rd bs

/-- `for path_spec in graph_query.get('paths', [])`: steps run in declared
order, each consuming the binding list of the previous one. -/
def runSteps (g : Graph) (filters : List Filter) :
    List PathSpec → List Binding → Except String (List Binding)
  | [], bs => Except.ok bs
  | step :: rest, bs => do
      let bs' ← execStep g filters step bs
      runSteps g filters rest bs'

/-- Deduplicating append into `all_properties[prop_key]`
(lines 952-956 and 1130-1134). -/
def addPropValue (acc : List (String × List Value)) (key : String) (v : Value) :
    List (String × List Value) :=
  match dictGet acc key with
  | none => acc ++ [(key, [v])]
  | some vs => if v ∈ vs then acc else dictSet acc key (vs ++ [v])

/-- Projection of one node's returned properties in the no-path case
(lines 944-956). -/
def projectNodeProps (aliasName : String) (retProps : List RetProp)
    (nd : NodeData) (acc : List (String × List Value)) :
    List (String × List Value) :=
  retProps.foldl (fun acc ps =>
    if ps.node = aliasName then
      match dictGet nd.properties ps.property with
      | some v => addPropValue acc (aliasName ++ "." ++ ps.property) v
      | none => acc
    else acc) acc

/-- No-path projection over every filtered start-node set (lines 940-957). -/
def projectStartSets (retProps : List RetProp) :
    List (String × List (String × NodeData)) → List (String × List Value) →
    List (String × List Value)
  | [], acc => acc
  | (a, ns) :: rest, acc =>
      projectStartSets retProps rest
        (ns.foldl (fun acc p => projectNodeProps a retProps p.2 acc) acc)

/-- Per-binding result entry (lines 1090-1124): `result_properties` is a
plain-assignment dict keyed `alias.property`, `result_nodes` maps every
bound alias to its node id. -/
def bindingResult (retProps : List RetProp) (b : Binding) : PathResult :=
  { nodes := b.assign.map fun p => (p.1, p.2.1),
    properties := b.assign.foldl (fun acc entry =>
      retProps.foldl (fun acc ps =>
        if ps.node = entry.1 then
          match dictGet entry.2.2.properties ps.property with
          | some v => dictSet acc (entry.1 ++ "." ++ ps.property) v
          | none => acc
        else acc) acc) [] }

/-- Combination of per-path properties into `all_properties`
(lines 1127-1134). -/
def combinePathProps : List PathResult → List (String × List Value) →
    List (String × List Value)
  | [], acc => acc
  | pr :: rest, acc =>
      combinePathProps rest
        (pr.properties.foldl (fun acc p => addPropValue acc p.1 p.2) acc)

/-- Start filtering for the second and later start-node sets. -/
def filterRestSets (filters : List Filter) :
    List (String × List (String × NodeData)) →
    Except String (List (String × List (String × NodeData)))
  | [] => Except.ok []
  | (a, ns) :: rest => do
      let f ← filterStartNodes filters a ns
      let rest' ← filterRestSets filters rest
      Except.ok ((a, f) :: rest')

/-- The body of `execute_graph_query` inside its `try:` block
(lines 843-1143), as a fallible computation.  Mirrors, in order:
procedural short-circuit, start-node resolution, the
`not start_nodes or not start_nodes[0]` early return, start filtering,
the no-path projection, path extension from the FIRST filtered start set,
the empty-binding early return, and per-binding projection. -/
def execInner (g : Graph) (q : GraphQuery) : Except String QueryResults :=
  if q.is_procedural then
    Except.ok { procedural := some q.procedural_data }
  else
    let startSets := q.start_nodes.map fun s =>
      (s.aliasName, g.nodes.filter fun p => p.2.labels.contains s.label)
    match startSets with
    | [] => Except.ok {}
    | (a0, ns0) :: restSets =>
      if ns0.isEmpty then Except.ok {}
      else do
        let filtered0 ← filterStartNodes q.filters a0 ns0
        let filteredRest ← filterRestSets q.filters restSets
        if q.paths.isEmpty then
          Except.ok
            { properties :=
                projectStartSets q.return_properties
                  ((a0, filtered0) :: filteredRest) [],
              count := filtered0.length }
        else do
          let bindings0 := filtered0.map fun p =>
            ({ assign := [(a0, p)], trace := [(a0, p.1)] } : Binding)
          let finalBindings ← runSteps g q.filters q.paths bindings0
          if finalBindings.isEmpty then Except.ok {}
          else
            let resultPaths := finalBindings.map (bindingResult q.return_properties)
            Except.ok
              { resultPaths := resultPaths,
                properties := combinePathProps resultPaths [],
                count := resultPaths.length }

/-- The `except` block result (lines 1145-1149). -/
def errorResult (msg : String) : QueryResults :=
  { count := 0, properties := [], error := some msg }

/-- `execute_graph_query` (lines 840-1149): the whole body runs inside
`try:`, and any raised exception is converted by the `except Exception`
block into `{count: 0, properties: {}, error: str(e)}`. -/
def execute_graph_query (g : Graph) (q : GraphQuery) : QueryResults :=
  match execInner g q with
  | Except.ok r => r
  | Except.error m => errorResult m

/-- The parameter keys `build_graph_query` consults (`'k' in params` tests
and `params['k']` reads on keys whose presence was just tested).
`coverage_types` is list-valued; an absent key and an empty list are both
falsy in `if 'coverage_types' in params and params['coverage_types']`. -/
structure BuildParams where
  policy_number : Option String := none
  policy_type : Option String := none
  claim_number : Option String := none
  user_id : Option String := none
  coverage_types : List String := []
deriving DecidableEq, Repr

/-- A fully populated path-step dict as `build_graph_query` emits it. -/
def pathStep (fa fl rt rd ta tl : String) : PathSpec :=
  { fromAlias := some fa, fromLabel := some fl, relType := some rt,
    relDirection := some rd, toAlias := some ta, toLabel := some tl }

/-- `build_graph_query` (lines 612-838): the deterministic per-intent
construction of the graph-query dict, transliterated branch by branch. -/
def build_graph_query (intent : String) (params : BuildParams) : GraphQuery :=
  let base : GraphQuery :=
    { start_nodes := [], paths := [], filters := [], return_properties := [],
      is_procedural := false, procedural_data := [] }
  if intent = "policy_details" then
    let q := { base with
      start_nodes := [⟨"Policy", "p"⟩],
      return_properties :=
        [⟨"p", "policy_number"⟩, ⟨"p", "effective_date"⟩,
         ⟨"p", "expiration_date"⟩, ⟨"p", "status"⟩, ⟨"p", "type"⟩] }
    let q := match params.policy_number with
      | some v => { q with filters := q.filters ++
          [Filter.simple ⟨"p", "policy_number", "=", Value.str v⟩] }
      | none => q
    let q := match params.policy_type with
      | some t => { q with filters := q.filters ++
          [Filter.simple ⟨"p", "type", "=", Value.str t⟩] }
      | none => q
    match params.user_id with
    | some u =>
        { q with
          paths := q.paths ++
            [pathStep "p" "Policy" "INSURES" "outgoing" "i" "Insured"],
          filters := q.filters ++
            [Filter.simple ⟨"i", "id_number", "=", Value.str u⟩],
          return_properties := q.return_properties ++ [⟨"i", "name"⟩] }
    | none => q
  else if intent = "coverage_inquiry" then
    let q := { base with
      start_nodes := [⟨"Policy", "p"⟩],
      paths := [pathStep "p" "Policy" "HAS_COVERAGE" "outgoing" "c" "Coverage"],
      return_properties :=
        [⟨"p", "policy_number"⟩, ⟨"c", "type"⟩, ⟨"c", "limit"⟩,
         ⟨"c", "deductible"⟩] }
    let q := match params.policy_number with
      | some v => { q with filters := q.filters ++
          [Filter.simple ⟨"p", "policy_number", "=", Value.str v⟩] }
      | none => q
    if params.coverage_types ≠ [] then
      { q with filters := q.filters ++
          [Filter.compound "OR" (params.coverage_types.map fun ct =>
            (⟨"c", "type", "=", Value.str ct⟩ : SimpleFilter))] }
    else q
  else if intent = "claim_status" then
    let q := { base with
      start_nodes := [⟨"Claim", "c"⟩],
      return_properties :=
        [⟨"c", "claim_number"⟩, ⟨"c", "date_of_loss"⟩, ⟨"c", "status"⟩,
         ⟨"c", "amount"⟩] }
    let q := match params.claim_number with
      | some v => { q with filters := q.filters ++
          [Filter.simple ⟨"c", "claim_number", "=", Value.str v⟩] }
      | none => q
    match params.user_id with
    | some u =>
        { q with
          paths := q.paths ++
            [pathStep "i" "Insured" "FILES_CLAIM" "outgoing" "c" "Claim"],
          start_nodes := [⟨"Insured", "i"⟩],
          filters := q.filters ++
            [Filter.simple ⟨"i", "id_number", "=", Value.str u⟩] }
    | none => q
  else if intent = "premium_information" then
    let q := { base with
      start_nodes := [⟨"Policy", "p"⟩],
      paths := [pathStep "p" "Policy" "HAS_PREMIUM" "outgoing" "pr" "Premium"],
      return_properties :=
        [⟨"p", "policy_number"⟩, ⟨"pr", "amount"⟩,
         ⟨"pr", "payment_frequency"⟩, ⟨"pr", "due_date"⟩] }
    let q := match params.policy_number with
      | some v => { q with filters := q.filters ++
          [Filter.simple ⟨"p", "policy_number", "=", Value.str v⟩] }
      | none => q
    match params.user_id with
    | some u =>
        { q with
          paths := q.paths ++
            [pathStep "p" "Policy" "INSURES" "outgoing" "i" "Insured"],
          filters := q.filters ++
            [Filter.simple ⟨"i", "id_number", "=", Value.str u⟩] }
    | none => q
  else if intent = "filing_claim" then
    { base with
      is_procedural := true,
      procedural_data :=
        [("required_info",
          "policy information, date and details of incident, photos if applicable"),
         ("contact_info", "1-800-555-CLAIM or claims@example-insurance.com")] }
  else
    { base with
      start_nodes := [⟨"Policy", "p"⟩],
      return_properties := [⟨"p", "policy_number"⟩] }

/-! ### Intent analysis (pattern stage)

`analyze_intent` (lines 489-532) first votes over the fixed regex table of
`_initialize_intent_patterns` (lines 160-229) with `re.match`; only when no
pattern at all matches does it fall through to the external
embedding-similarity service.  The regexes are embedded as abstract syntax
and matched with Brzozowski derivatives; `re.match` anchors at the start of
the text and accepts when some prefix matches.  All patterns carry the
`(?i)` flag, realised by lowering the subject text and writing the pattern
literals in lower case. -/

/-- Regular-expression syntax: empty language, empty string, `.`,
a literal character, a character class given by a predicate,
concatenation, alternation and Kleene star. -/
inductive RE where
  | emp
  | eps
  | any
  | lit (c : Char)
  | cls (p : Char → Bool)
  | seq (r₁ r₂ : RE)
  | alt (r₁ r₂ : RE)
  | star (r : RE)

/-- Does the language of `r` contain the empty string? -/
def RE.nullable : RE → Bool
  | .emp => false
  | .eps => true
  | .any => false
  | .lit _ => false
  | .cls _ => false
  | .seq r₁ r₂ => r₁.nullable && r₂.nullable
  | .alt r₁ r₂ => r₁.nullable || r₂.nullable
  | .star _ => true

/-- Smart concatenation, pruning the absorbing `emp`. -/
def RE.mkSeq : RE → RE → RE
  | .emp, _ => .emp
  | _, .emp => .emp
  | .eps, r => r
  | r, .eps => r
  | r₁, r₂ => .seq r₁ r₂

/-- Smart alternation, pruning the neutral `emp`. -/
def RE.mkAlt : RE → RE → RE
  | .emp, r => r
  | r, .emp => r
  | r₁, r₂ => .alt r₁ r₂

/-- Brzozowski derivative of `r` by the character `c`. -/
def RE.deriv : RE → Char → RE
  | .emp, _ => .emp
  | .eps, _ => .emp
  | .any, _ => .eps
  | .lit d, c => if c = d then .eps else .emp
  | .cls p, c => if p c then .eps else .emp
  | .seq r₁ r₂, c =>
      if r₁.nullable then .mkAlt (.mkSeq (r₁.deriv c) r₂) (r₂.deriv c)
      else .mkSeq (r₁.deriv c) r₂
  | .alt r₁ r₂, c => .mkAlt (r₁.deriv c) (r₂.deriv c)
  | .star r, c => .mkSeq (r.deriv c) (.star r)

/-- `re.match` semantics: some prefix of the character list is in the
language of `r` (the pattern is anchored at the start only). -/
def RE.matchPre (r : RE) : List Char → Bool
  | [] => r.nullable
  | c :: cs => r.nullable || (r.deriv c).matchPre cs

/-- `re.fullmatch` semantics: the whole character list is in the language. -/
def RE.matchAll (r : RE) (cs : List Char) : Bool :=
  (cs.foldl RE.deriv r).nullable

/-- A sequence of literal characters. -/
def rstr (s : String) : RE := s.data.foldr (fun c r => RE.seq (.lit c) r) .eps

/-- Concatenation of a pattern list. -/
def rcat (l : List RE) : RE := l.foldr RE.seq .eps

/-- A non-capturing alternation group `(?:a|b|…)` of literal words. -/
def rgrp (words : List String) : RE := (words.map rstr).foldr RE.alt .emp

/-- Python `\s` (the subject texts are ASCII). -/
def isWs (c : Char) : Bool :=
  c = ' ' ∨ c = '\t' ∨ c = '\n' ∨ c = '\r' ∨ c = Char.ofNat 11 ∨ c = Char.ofNat 12

/-- Python `\w` (the subject texts are ASCII). -/
def isWord (c : Char) : Bool := c.isAlphanum || c = '_'

/-- `\s+` -/
def wsp : RE := .seq (.cls isWs) (.star (.cls isWs))

/-- `\s*` -/
def wss : RE := .star (.cls isWs)

/-- `(\w+)` — the capture group is irrelevant to whether the match succeeds. -/
def wrd : RE := .seq (.cls isWord) (.star (.cls isWord))

/-- `.*` -/
def dstar : RE := .star .any

/-- The apostrophe appearing in the claim-status pattern `what's …`. -/
def apos : Char := Char.ofNat 39

/-- The intent-pattern table of `_initialize_intent_patterns`
(lines 160-229), in insertion order, with each `(?i)` regex transliterated
(lower-cased literals; the subject is lowered before matching). -/
def intent_patterns : List (String × List RE) :=
  [("policy_details",
    [rcat [dstar, rstr "policy", wsp, rstr "details", dstar],
     rcat [dstar, rstr "information", wsp, rstr "about", wsp,
           rgrp ["my", "a", "the"], wsp, rstr "policy", dstar],
     rcat [dstar, rstr "what", wsp, rgrp ["is", "are"], wsp,
           rgrp ["in", "on", "the"], wsp, rgrp ["my", "the"], wsp,
           rstr "policy", dstar],
     rcat [dstar, rstr "tell", wsp, rstr "me", wsp, rstr "about", wsp,
           rgrp ["my", "a", "the"], wsp, rstr "policy", dstar]]),
   ("coverage_inquiry",
    [rcat [dstar, rstr "what", wsp, rgrp ["is", "does"], wsp,
           rgrp ["my", "the"], wsp, rstr "policy", wsp, rstr "cover", dstar],
     rcat [dstar, rstr "coverage", wsp, rgrp ["details", "information"], dstar],
     rcat [dstar, rstr "what", wsp, rgrp ["are", "is"], wsp,
           rgrp ["my", "the"], wsp, rstr "coverage", dstar],
     rcat [dstar, rstr "covered", wsp, rstr "under", wsp,
           rgrp ["my", "the"], wsp, rstr "policy", dstar]]),
   ("claim_status",
    [rcat [dstar, rstr "status", wsp, rstr "of", wsp,
           rgrp ["my", "the", "a"], wsp, rstr "claim", dstar],
     rcat [dstar, rstr "claim", wsp, rgrp ["status", "update", "progress"],
           dstar],
     rcat [dstar, rstr "what", .lit apos, rstr "s", wsp, rstr "happening",
           wsp, rstr "with", wsp, rgrp ["my", "the"], wsp, rstr "claim",
           dstar],
     rcat [dstar, rstr "where", wsp, rstr "is", wsp, rgrp ["my", "the"],
           wsp, rstr "claim", dstar]]),
   ("premium_information",
    [rcat [dstar, rgrp ["my", "the"], wsp, rstr "premium", dstar],
     rcat [dstar, rstr "how", wsp, rstr "much", wsp,
           rgrp ["is", "does", "do"], wsp, rgrp ["my", "the", "i"], wsp,
           rgrp ["premium", "pay", "cost"], dstar],
     rcat [dstar, rstr "payment", wsp, rgrp ["amount", "details", "schedule"],
           dstar],
     rcat [dstar, rstr "when", wsp, rgrp ["is", "are"], wsp,
           rgrp ["my", "the"], wsp, rstr "payment", dstar]]),
   ("filing_claim",
    [rcat [dstar, rgrp ["how", "can", "do"], wsp, rgrp ["to", "i", "you"],
           wsp, rstr "file", wsp, rstr "a", wsp, rstr "claim", dstar],
     rcat [dstar, rgrp ["submit", "start", "begin", "initiate"], wsp,
           rstr "a", wsp, .alt (rstr "new") .eps, wss, rstr "claim", dstar],
     rcat [dstar, rstr "claim", wsp, rgrp ["filing", "submission"], wsp,
           rstr "process", dstar],
     rcat [dstar, rstr "report", wsp, rgrp ["a", "an", "the"], wsp,
           rgrp ["accident", "incident", "loss", "damage"], dstar]]),
   ("definition_inquiry",
    [rcat [dstar, rstr "what", wsp, rgrp ["does", "is", "are"], wsp, wrd,
           wsp, rstr "mean", dstar],
     rcat [dstar, rstr "define", wsp, wrd, dstar],
     rcat [dstar, rstr "meaning", wsp, rstr "of", wsp, wrd, dstar],
     rcat [dstar, rstr "definition", wsp, rstr "of", wsp, wrd, dstar]])]

/-- The pattern-vote dict of `analyze_intent` (lines 500-505): for each
intent in table order, the number of its patterns matching the query text;
an intent enters the dict only when at least one pattern matched. -/
def patternMatches (query_text : String) : List (String × Nat) :=
  let cs := (strLower query_text).data
  intent_patterns.filterMap fun entry =>
    let score := (entry.2.filter fun r => r.matchPre cs).length
    if score > 0 then some (entry.1, score) else none

/-- Python `max(items, key=lambda x: x[1])`: the first item carrying the
maximal score (later items replace only on strictly greater score). -/
def firstMax : List (String × Nat) → Option (String × Nat)
  | [] => none
  | x :: xs => some (xs.foldl (fun best y => if best.2 < y.2 then y else best) x)

/-- The pattern stage of `analyze_intent` (lines 499-511), with confidence
in tenths: `min(0.9, 0.7 + 0.1*score)` becomes `min 9 (7 + score)`.
`none` means no pattern matched anywhere, in which case the source falls
through to the external embedding-similarity service and the returned
`method` is `embedding` or `default` — never `pattern`. -/
def analyze_intent_pattern_stage (query_text : String) :
    Option (String × Nat) :=
  match firstMax (patternMatches query_text) with
  | some (intent, score) => some (intent, min 9 (7 + score))
  | none => none

/-! ### Query history -/

/-- One `query_history` entry (the dict assembled in `process_query`
lines 456-463; the fields are never read back by `update_query_history`,
and the nondeterministic timestamp is carried as an opaque string). -/
structure QueryInfo where
  query : String
  intent : String
  answer : String
  timestamp : String
deriving DecidableEq, Repr

/-- `self.max_history_length` (line 82). -/
def max_history_length : Nat := 10

/-- `update_query_history` (lines 1432-1438): append, then when the bound
is exceeded keep the slice `[-max_history_length:]`, i.e. the most recent
`max_history_length` entries. -/
def update_query_history (history : List QueryInfo) (q : QueryInfo) :
    List QueryInfo :=
  let h := history ++ [q]
  if max_history_length < h.length then h.drop (h.length - max_history_length)
  else h

end GraphRag

/-!
## The schema-evolution engine (`src/self_evolving_graph_schema.py`)

The schema graph is an `nx.DiGraph` (line 23): node keys are entity-type
names, and — crucially — there is AT MOST ONE edge per `(source, target)`
pair; `add_edge` on an existing pair replaces the edge attributes.
Python floats are modelled as `ℚ`; `datetime.now()` timestamps are
external nondeterminism and are not carried in version records.
-/

namespace SchemaEvo

open GraphRag (dictGet dictSet strLower RE rcat rstr Value)

/-- A schema property definition, e.g. `{"type": "string", "required": True,
"enum": […]}`; `required` is read with `.get('required', False)`. -/
structure PropDef where
  ptype : String := ""
  required : Bool := false
  enum : List String := []
deriving DecidableEq, Repr

/-- Constraint dicts (e.g. `{"cardinality": "one_to_many"}`); never
interpreted, only stored and exported. -/
abbrev Constraints := List (String × String)

/-- Attributes stored on a schema node by `add_entity_type`
(`type='entity_type'`, `properties`, `constraints`). -/
structure SchemaNodeData where
  ntype : String
  properties : List (String × PropDef)
  constraints : Constraints
deriving DecidableEq, Repr

/-- Attributes stored on a schema edge by `add_relationship_type`
(`name`, `type='relationship_type'`, `properties`, `constraints`). -/
structure SchemaEdgeData where
  name : String
  etype : String
  properties : List (String × PropDef)
  constraints : Constraints
deriving DecidableEq, Repr

/-- The `nx.DiGraph` holding the schema. -/
structure SchemaGraph where
  nodes : List (String × SchemaNodeData)
  edges : List (String × String × SchemaEdgeData)
deriving DecidableEq, Repr

/-- `DiGraph.add_node`: a fresh key is appended, an existing key has its
attributes replaced. -/
def addNodeD : List (String × SchemaNodeData) → String → SchemaNodeData →
    List (String × SchemaNodeData)
  | [], k, d => [(k, d)]
  | (k', d') :: rest, k, d =>
      if k' = k then (k, d) :: rest else (k', d') :: addNodeD rest k d

/-- `DiGraph.add_edge`: at most one edge per `(source, target)` pair — an
existing pair has its attributes REPLACED, otherwise the edge is appended. -/
def addEdgeD : List (String × String × SchemaEdgeData) → String → String →
    SchemaEdgeData → List (String × String × SchemaEdgeData)
  | [], s, t, d => [(s, t, d)]
  | (s', t', d') :: rest, s, t, d =>
      if s' = s ∧ t' = t then (s, t, d) :: rest
      else (s', t', d') :: addEdgeD rest s t d

/-- A `SchemaVersion` record (lines 376-387); the wall-clock timestamp is
external nondeterminism and is omitted. -/
structure SchemaVersion where
  version : Nat
  description : String
  entity_count : Nat
  relationship_count : Nat
deriving DecidableEq, Repr

/-- `self.schema_metrics` (lines 27-31, recomputed at lines 310-335). -/
structure SchemaMetrics where
  entity_total : Nat := 0
  entity_by_type : List (String × Nat) := []
  relationship_total : Nat := 0
  relationship_by_type : List (String × Nat) := []
  schema_changes : List SchemaVersion := []
deriving DecidableEq, Repr

/-- `self.quality_scores`: the `__init__` dict (lines 32-36) has no
`overall` key, so `overall` is optional and only set by
`_calculate_quality_scores`. -/
structure QualityScores where
  coverage : ℚ := 0
  consistency : ℚ := 0
  connectivity : ℚ := 0
  overall : Option ℚ := none
deriving DecidableEq, Repr

/-- The mutable state of a `SelfEvolvingGraphSchema` instance. -/
structure SchemaState where
  schema_graph : SchemaGraph := { nodes := [], edges := [] }
  schema_versions : List SchemaVersion := []
  schema_metrics : SchemaMetrics := {}
  quality_scores : QualityScores := {}
deriving DecidableEq, Repr

/-- `get_entity_types` (lines 291-294). -/
def get_entity_types (g : SchemaGraph) : List String :=
  (g.nodes.filter fun p => decide (p.2.ntype = "entity_type")).map Prod.fst

/-- One element of the `get_relationship_types` result. -/
structure RelType where
  name : String
  source : String
  target : String
  properties : List (String × PropDef)
  constraints : Constraints
deriving DecidableEq, Repr

/-- `get_relationship_types` (lines 296-308). -/
def get_relationship_types (g : SchemaGraph) : List RelType :=
  (g.edges.filter fun e => decide (e.2.2.etype = "relationship_type")).map
    fun e => ⟨e.2.2.name, e.1, e.2.1, e.2.2.properties, e.2.2.constraints⟩

/-- `nx.density` for a directed graph: `m / (n·(n-1))`, and `0` when the
graph has no edges or at most one node. -/
def nxDensity (n m : Nat) : ℚ :=
  if m = 0 ∨ n ≤ 1 then 0 else (m : ℚ) / ((n : ℚ) * ((n : ℚ) - 1))

/-- `_calculate_quality_scores` (lines 337-374). -/
def calculate_quality_scores (g : SchemaGraph) : QualityScores :=
  let entity_count := (get_entity_types g).length
  let relationship_count := (get_relationship_types g).length
  let coverage : ℚ :=
    min 1 (((entity_count : ℚ) / 15 + (relationship_count : ℚ) / 25) / 2)
  let connectivity : ℚ :=
    if 0 < entity_count then nxDensity g.nodes.length g.edges.length else 0
  let completeness : List ℚ :=
    (g.nodes.filter fun p => decide (p.2.ntype = "entity_type")).map fun p =>
      let props := p.2.properties
      if 0 < props.length then
        (((props.filter fun q => q.2.required).length : ℚ) / (props.length : ℚ))
      else 0
  let consistency : ℚ := completeness.sum / ((max 1 completeness.length : Nat) : ℚ)
  { coverage := coverage, consistency := consistency,
    connectivity := connectivity,
    overall := some ((coverage + consistency + connectivity) / 3) }

/-- `_update_schema_metrics` (lines 310-335): refreshes the count tables
and recomputes the quality scores. -/
def update_schema_metrics (s : SchemaState) : SchemaState :=
  let entity_types := get_entity_types s.schema_graph
  let relationships := get_relationship_types s.schema_graph
  { s with
    schema_metrics := { s.schema_metrics with
      entity_total := entity_types.length,
      entity_by_type := entity_types.map fun e => (e, 1),
      relationship_total := relationships.length,
      relationship_by_type := relationships.foldl (fun acc r =>
        match dictGet acc r.name with
        | some n => dictSet acc r.name (n + 1)
        | none => dictSet acc r.name 1) [] },
    quality_scores := calculate_quality_scores s.schema_graph }

/-- `_record_schema_version` (lines 376-387): appends an audit record to
both `schema_versions` and `schema_metrics['schema_changes']`. -/
def record_schema_version (s : SchemaState) (description : String) :
    SchemaState :=
  let v : SchemaVersion :=
    { version := s.schema_versions.length + 1, description := description,
      entity_count := (get_entity_types s.schema_graph).length,
      relationship_count := (get_relationship_types s.schema_graph).length }
  { s with
    schema_versions := s.schema_versions ++ [v],
    schema_metrics := { s.schema_metrics with
      schema_changes := s.schema_metrics.schema_changes ++ [v] } }

/-- `add_entity_type` (lines 209-235). -/
def add_entity_type (s : SchemaState) (name : String)
    (properties : List (String × PropDef)) (constraints : Constraints) :
    Bool × SchemaState :=
  if (get_entity_types s.schema_graph).contains name then (false, s)
  else
    let g := { s.schema_graph with
      nodes := addNodeD s.schema_graph.nodes name
        { ntype := "entity_type", properties := properties,
          constraints := constraints } }
    let s := update_schema_metrics { s with schema_graph := g }
    let s := record_schema_version s ("Added entity type: " ++ name)
    (true, s)

/-- `add_relationship_type` (lines 237-289): rejects a missing source or
target entity type, rejects an exact duplicate `(name, source, target)`
triple, and otherwise calls `DiGraph.add_edge` — which REPLACES any
existing edge between the same `(source, target)` pair. -/
def add_relationship_type (s : SchemaState) (name source_type target_type : String)
    (properties : List (String × PropDef)) (constraints : Constraints) :
    Bool × SchemaState :=
  let entity_types := get_entity_types s.schema_graph
  if ¬ entity_types.contains source_type then (false, s)
  else if ¬ entity_types.contains target_type then (false, s)
  else if s.schema_graph.edges.any (fun e =>
      decide (e.1 = source_type ∧ e.2.1 = target_type ∧ e.2.2.name = name)) then
    (false, s)
  else
    let g := { s.schema_graph with
      edges := addEdgeD s.schema_graph.edges source_type target_type
        { name := name, etype := "relationship_type",
          properties := properties, constraints := constraints } }
    let s := update_schema_metrics { s with schema_graph := g }
    let s := record_schema_version s
      ("Added relationship type: " ++ name ++ " (" ++ source_type ++
        " -> " ++ target_type ++ ")")
    (true, s)

/-! ### Instance-data analysis (`analyze_instance_data`, lines 389-563) -/

/-- A JSON-shaped instance property value.  Python `float` values
(`'number'`) are not modelled; no repository scenario produces one. -/
inductive IVal where
  | inull
  | ibool (b : Bool)
  | iint (n : Int)
  | istr (s : String)
  | iarr (elems : List IVal)
  | iobj (fields : List (String × IVal))

/-- Python `str(value)` for sampled values; container renderings are
abbreviated — no claim inspects the text of a sample value. -/
def pyStr : IVal → String
  | .inull => "None"
  | .ibool true => "True"
  | .ibool false => "False"
  | .iint n => toString n
  | .istr s => s
  | .iarr _ => "<array>"
  | .iobj _ => "<object>"

/-- `\d\d\d\d-\d\d-\d\d` (ISO date, `re.fullmatch`). -/
def dateISO : RE :=
  rcat [.cls Char.isDigit, .cls Char.isDigit, .cls Char.isDigit,
        .cls Char.isDigit, .lit (Char.ofNat 45), .cls Char.isDigit,
        .cls Char.isDigit, .lit (Char.ofNat 45), .cls Char.isDigit,
        .cls Char.isDigit]

/-- `\d\d/\d\d/\d\d\d\d` (`MM/DD/YYYY`). -/
def dateSlash : RE :=
  rcat [.cls Char.isDigit, .cls Char.isDigit, .lit (Char.ofNat 47),
        .cls Char.isDigit, .cls Char.isDigit, .lit (Char.ofNat 47),
        .cls Char.isDigit, .cls Char.isDigit, .cls Char.isDigit,
        .cls Char.isDigit]

/-- `\d\d-\d\d-\d\d\d\d` (`MM-DD-YYYY`). -/
def dateDash : RE :=
  rcat [.cls Char.isDigit, .cls Char.isDigit, .lit (Char.ofNat 45),
        .cls Char.isDigit, .cls Char.isDigit, .lit (Char.ofNat 45),
        .cls Char.isDigit, .cls Char.isDigit, .cls Char.isDigit,
        .cls Char.isDigit]

/-- `_infer_property_type` (lines 573-603); the `isinstance` chain tests
`bool` before `int`, and only non-container scalars reach the date regexes. -/
def infer_property_type : IVal → String
  | .inull => "null"
  | .ibool _ => "boolean"
  | .iint _ => "integer"
  | .iobj _ => "object"
  | .iarr _ => "array"
  | .istr s =>
      if dateISO.matchAll s.data then "date"
      else if dateSlash.matchAll s.data then "date"
      else if dateDash.matchAll s.data then "date"
      else "string"

/-- Per-property frequency record: `{count, types:set, values:set}`.
Python sets are modelled as insertion-ordered duplicate-free lists. -/
structure PropStat where
  count : Nat := 0
  types : List String := []
  values : List String := []

/-- Set insertion. -/
def insertNew (l : List String) (x : String) : List String :=
  if l.contains x then l else l ++ [x]

/-- One observation of a property value (lines 436-445 / 501-510):
bump the count, record the inferred type, and record the sample value
only while fewer than `cap` samples are stored. -/
def bumpProp (cap : Nat) (st : PropStat) (pv : IVal) : PropStat :=
  let st := { st with count := st.count + 1,
                      types := insertNew st.types (infer_property_type pv) }
  if st.values.length < cap then
    { st with values := insertNew st.values (pyStr pv) }
  else st

/-- An instance node `{id, labels, properties}`. -/
structure INode where
  id : String
  labels : List String
  properties : List (String × IVal)

/-- An instance edge `{source, target, type, properties}`; a missing
`type` key behaves exactly like the falsy empty string. -/
structure IEdge where
  source : String
  target : String
  itype : String
  properties : List (String × IVal)

/-- An instance-data batch `{nodes, edges}`. -/
structure InstanceData where
  nodes : List INode
  edges : List IEdge

/-- Does `needle` occur as a prefix of `hay`? -/
def chPre : List Char → List Char → Bool
  | [], _ => true
  | _ :: _, [] => false
  | c :: cs, d :: ds => c = d && chPre cs ds

/-- Python substring test `needle in hay`. -/
def chSub (needle : List Char) : List Char → Bool
  | [] => chPre needle []
  | c :: rest => chPre needle (c :: rest) || chSub needle rest

/-- `_analyze_property` (lines 605-639): type vote over the observed type
set (`next(iter(types))` is the first recorded type), the `count > 5`
required heuristic, the date / id / number name heuristics, and the
small-value-set enum heuristic. -/
structure AnalyzedProp where
  ptype : String
  required : Bool
  sample_values : List String
  enum : Option (List String)

/-- `_analyze_property` (lines 605-639). -/
def analyze_property (name : String) (data : PropStat) : AnalyzedProp :=
  let required := decide (5 < data.count)
  let ptype :=
    if data.types.length = 1 then data.types.headD ""
    else if data.types.contains "string" && decide (1 < data.types.length) then
      "string"
    else if data.types.contains "number" && data.types.contains "integer" then
      "number"
    else data.types.headD ""
  let lower_name := (strLower name).data
  let ptype :=
    if chSub "date".data lower_name && decide (ptype = "string") then "date"
    else ptype
  let required :=
    if chSub "id".data lower_name || chSub "number".data lower_name then true
    else required
  let enum :=
    if decide (data.values.length ≤ 5) && decide (5 ≤ data.count) then
      some data.values
    else none
  { ptype := ptype, required := required, sample_values := data.values,
    enum := enum }

/-- A proposed new entity type (lines 461-465). -/
structure EntityRec where
  name : String
  frequency : Nat
  proposed_properties : List (String × AnalyzedProp)

/-- A proposed new relationship type (lines 531-537). -/
structure RelRec where
  name : String
  source : String
  target : String
  frequency : Nat
  proposed_properties : List (String × AnalyzedProp)

/-- The advisory `recommendations` dict (lines 399-404). -/
structure Recommendations where
  new_entity_types : List EntityRec
  new_property_types : List (String × List (String × AnalyzedProp))
  new_relationship_types : List RelRec
  confidence_scores : List (String × ℚ)

/-- `_get_node_label` (lines 565-571): primary label of the first node
carrying the id, `none` when the node or its label list is missing. -/
def get_node_label (nid : String) (nodes : List INode) : Option String :=
  match nodes.find? (fun n => n.id == nid) with
  | some n => n.labels.head?
  | none => none

/-- The node scan (lines 412-445): builds `label_counts` (also serving as
the deterministically ordered `all_labels`) and `property_sets`. -/
def scanNodes (nodes : List INode) :
    List (String × Nat) × List (String × List (String × PropStat)) :=
  nodes.foldl (fun acc node =>
    node.labels.foldl (fun acc label =>
      let lc := match dictGet acc.1 label with
        | some n => dictSet acc.1 label (n + 1)
        | none => dictSet acc.1 label 1
      let cur := (dictGet acc.2 label).getD []
      let cur := node.properties.foldl (fun m pv =>
        let st := (dictGet m pv.1).getD {}
        dictSet m pv.1 (bumpProp 10 st pv.2)) cur
      (lc, dictSet acc.2 label cur)) acc) ([], [])

/-- Per-`(type, source_label, target_label)` edge statistics. -/
structure RelPattern where
  count : Nat := 0
  properties : List (String × PropStat) := []

/-- The edge scan (lines 470-510): skips edges whose endpoint labels or
type are missing/empty (all falsy in Python), keys the statistics by
`"type:src:tgt"`, and samples at most 5 values per property. -/
def scanEdges (nodes : List INode) (edges : List IEdge) :
    List (String × RelPattern) :=
  edges.foldl (fun acc edge =>
    match get_node_label edge.source nodes, get_node_label edge.target nodes with
    | some sl, some tl =>
        if sl = "" ∨ tl = "" ∨ edge.itype = "" then acc
        else
          let key := edge.itype ++ ":" ++ sl ++ ":" ++ tl
          let pat := (dictGet acc key).getD {}
          let pat := { pat with count := pat.count + 1 }
          let pat := { pat with properties :=
            edge.properties.foldl (fun m pv =>
              let st := (dictGet m pv.1).getD {}
              dictSet m pv.1 (bumpProp 5 st pv.2)) pat.properties }
          dictSet acc key pat
    | _, _ => acc) []

/-- `analyze_instance_data` (lines 389-563).  The method only READS the
instance state (`get_entity_types`, `get_relationship_types`, the node
property maps); it is embedded as a state-passing function so that the
frame property is expressible, and it returns the state it leaves behind
together with the advisory recommendations.  Python `set` iteration
orders are realised as deterministic first-insertion orders. -/
def analyze_instance_data (s : SchemaState) (d : InstanceData) :
    SchemaState × Recommendations :=
  let existing_entity_types := get_entity_types s.schema_graph
  let existing_rel_types :=
    (get_relationship_types s.schema_graph).foldl
      (fun acc r => dictSet acc r.name (r.source, r.target)) []
  let scanned := scanNodes d.nodes
  let label_counts := scanned.1
  let property_sets := scanned.2
  -- new entity types (lines 447-467)
  let entityPart := label_counts.foldl (fun acc lp =>
    if existing_entity_types.contains lp.1 then acc
    else
      let confidence : ℚ := min 1 ((lp.2 : ℚ) / 10)
      let props := (dictGet property_sets lp.1).getD []
      let common_props := (props.filter fun p => decide (3 ≤ p.2.count)).map
        fun p => (p.1, analyze_property p.1 p.2)
      (acc.1 ++ [{ name := lp.1, frequency := lp.2,
                   proposed_properties := common_props : EntityRec }],
       acc.2 ++ [("entity_type:" ++ lp.1, confidence)]))
    (([], []) : List EntityRec × List (String × ℚ))
  -- new relationship types (lines 469-539)
  let rel_patterns := scanEdges d.nodes d.edges
  let relPart := rel_patterns.foldl (fun acc kp =>
    let parts := kp.1.splitOn ":"
    let rel_type := parts.getD 0 ""
    let source_label := parts.getD 1 ""
    let target_label := parts.getD 2 ""
    let isNew := match dictGet existing_rel_types rel_type with
      | none => true
      | some st => decide (st ≠ (source_label, target_label))
    if isNew then
      let confidence : ℚ := min 1 ((kp.2.count : ℚ) / 5)
      let common_props :=
        (kp.2.properties.filter fun p => decide (2 ≤ p.2.count)).map
          fun p => (p.1, analyze_property p.1 p.2)
      (acc.1 ++ [{ name := rel_type, source := source_label,
                   target := target_label, frequency := kp.2.count,
                   proposed_properties := common_props : RelRec }],
       acc.2 ++ [("relationship_type:" ++ kp.1, confidence)])
    else acc)
    (([], []) : List RelRec × List (String × ℚ))
  -- new properties for existing entity types (lines 541-561)
  let propPart := existing_entity_types.foldl (fun acc entity_type =>
    match dictGet property_sets entity_type with
    | none => acc
    | some props =>
        let current_props :=
          match dictGet s.schema_graph.nodes entity_type with
          | some nd => nd.properties.map Prod.fst
          | none => []
        let found := props.foldl (fun found p =>
          if ¬ current_props.contains p.1 ∧ 3 ≤ p.2.count then
            (found.1 ++ [(p.1, analyze_property p.1 p.2)],
             found.2 ++ [("property:" ++ entity_type ++ "." ++ p.1,
                          (min 1 ((p.2.count : ℚ) / 10) : ℚ))])
          else found) (([], []) : List (String × AnalyzedProp) × List (String × ℚ))
        if found.1.isEmpty then (acc.1, acc.2 ++ found.2)
        else (acc.1 ++ [(entity_type, found.1)], acc.2 ++ found.2))
    (([], []) : List (String × List (String × AnalyzedProp)) × List (String × ℚ))
  (s, { new_entity_types := entityPart.1,
        new_property_types := propPart.1,
        new_relationship_types := relPart.1,
        confidence_scores := entityPart.2 ++ relPart.2 ++ propPart.2 })

end SchemaEvo

/-! ## Concrete scenario states used by the theorems -/

namespace GraphRag

/-- Is a value a Python `str`? -/
def Value.isStr : Value → Bool
  | .str _ => true
  | .int _ => false

/-- The §8 scenario graph: it CONTAINS `Policy(P1001)` —HAS_COVERAGE→
`Coverage(type="liability", limit=500000)` (the fixture of
`test_query_processor.py`), alongside an unrelated second policy with its
own coverage. -/
def coverageScenarioGraph : Graph :=
  { nodes :=
      [("pol1", { labels := ["Policy"],
                  properties := [("policy_number", Value.str "P1001"),
                                 ("status", Value.str "active")] }),
       ("cov1", { labels := ["Coverage"],
                  properties := [("type", Value.str "liability"),
                                 ("limit", Value.int 500000)] }),
       ("pol2", { labels := ["Policy"],
                  properties := [("policy_number", Value.str "P2002")] }),
       ("cov2", { labels := ["Coverage"],
                  properties := [("type", Value.str "fire"),
                                 ("limit", Value.int 10000)] })],
    edges := [{ source := "pol1", target := "cov1", key := "HAS_COVERAGE" },
              { source := "pol2", target := "cov2", key := "HAS_COVERAGE" }] }

/-- The coverage-inquiry query of the §8 scenario. -/
def coverageScenarioQuery : GraphQuery :=
  build_graph_query "coverage_inquiry" { policy_number := some "P1001" }

/-- A graph whose only coverage has type `collision`: the OR filter built
from `coverage_types=["liability"]` should reject it. -/
def collisionCoverageGraph : Graph :=
  { nodes :=
      [("pol1", { labels := ["Policy"],
                  properties := [("policy_number", Value.str "P1001")] }),
       ("cov1", { labels := ["Coverage"],
                  properties := [("type", Value.str "collision"),
                                 ("limit", Value.int 250000)] })],
    edges := [{ source := "pol1", target := "cov1", key := "HAS_COVERAGE" }] }

/-- The coverage-inquiry query carrying the compound OR coverage filter. -/
def orFilterQuery : GraphQuery :=
  build_graph_query "coverage_inquiry"
    { policy_number := some "P1001", coverage_types := ["liability"] }

/-- Fan-out graph for the binding-count claims:
`a1 : A` → `b1 : B` (key `R1`), `b1` → `c1, c2 : C` (key `R2`). -/
def fanGraph : Graph :=
  { nodes :=
      [("a1", { labels := ["A"], properties := [] }),
       ("b1", { labels := ["B"], properties := [] }),
       ("c1", { labels := ["C"], properties := [] }),
       ("c2", { labels := ["C"], properties := [] })],
    edges :=
      [{ source := "a1", target := "b1", key := "R1" },
       { source := "b1", target := "c1", key := "R2" },
       { source := "b1", target := "c2", key := "R2" }] }

/-- First hop of the fan-out query: `x:A --R1--> y:B`. -/
def fanStep1 : PathSpec := pathStep "x" "A" "R1" "outgoing" "y" "B"

/-- Second hop of the fan-out query: `y:B --R2--> z:C`. -/
def fanStep2 : PathSpec := pathStep "y" "B" "R2" "outgoing" "z" "C"

/-- A two-step query over `fanGraph`: `x:A --R1--> y:B --R2--> z:C`. -/
def fanQuery : GraphQuery :=
  { start_nodes := [⟨"A", "x"⟩],
    paths := [fanStep1, fanStep2],
    filters := [], return_properties := [],
    is_procedural := false, procedural_data := [] }

/-- The binding list the executor builds from the (unfiltered) start set
of `fanQuery` over `fanGraph`. -/
def fanBindings0 : List Binding :=
  (fanGraph.nodes.filter fun p => p.2.labels.contains "A").map fun p =>
    { assign := [("x", p)], trace := [("x", p.1)] }

/-- The binding list after the first step of `fanQuery` (one binding). -/
def fanBindings1 : List Binding :=
  match runSteps fanGraph fanQuery.filters [fanStep1] fanBindings0 with
  | Except.ok l => l
  | Except.error _ => []

/-- The binding list after the second step of `fanQuery` (two bindings:
the fan-out of node `b1` is 2). -/
def fanBindings2 : List Binding :=
  match stepLoop fanGraph fanQuery.filters fanStep2 "y" "z" "R2" "outgoing"
      fanBindings1 with
  | Except.ok l => l
  | Except.error _ => []

/-- Per-binding fan-out of one path step: the number of extensions the
binding contributes when the step succeeds (`0` for a faulting binding). -/
def stepFanOut (g : Graph) (filters : List Filter) (step : PathSpec)
    (fromAlias toAlias relType relDirection : String) (b : Binding) : Nat :=
  match bindingExtensions g filters step fromAlias toAlias relType relDirection b with
  | Except.ok e => e.length
  | Except.error _ => 0

/-- A path-step dict with every field missing: reading
`path_spec['from']['alias']` raises, exercising the executor fault path. -/
def emptyPathStep : PathSpec :=
  { fromAlias := none, fromLabel := none, toAlias := none, toLabel := none,
    relType := none, relDirection := none }

/-- A query whose first path step has no fields: execution reaches the
step (the start set is non-empty) and faults. -/
def badPathQuery : GraphQuery :=
  { start_nodes := [⟨"Policy", "p"⟩], paths := [emptyPathStep],
    filters := [], return_properties := [],
    is_procedural := false, procedural_data := [] }

end GraphRag

namespace SchemaEvo

/-- A schema built through the public mutation API holding the entity
types `Policy` and `Coverage` and no relationship types yet. -/
def twoEntitySchema : SchemaState :=
  (add_entity_type ((add_entity_type {} "Policy" [] []).2) "Coverage" [] []).2

/-- A schema built through the public mutation API: entity types `Policy`
and `Coverage`, and the relationship `HAS_COVERAGE : Policy → Coverage`. -/
def policyCoverageSchema : SchemaState :=
  (add_relationship_type twoEntitySchema "HAS_COVERAGE" "Policy" "Coverage"
    [] []).2

/-- The quality-score contract of the spec: `coverage` is the capped count
formula over the CURRENT entity/relationship counts, and `overall` is the
arithmetic mean of the three stored component scores. -/
def qualityScoresSpec (s : SchemaState) : Prop :=
  s.quality_scores.coverage =
    min 1 ((((get_entity_types s.schema_graph).length : ℚ) / 15 +
            ((get_relationship_types s.schema_graph).length : ℚ) / 25) / 2)
  ∧ s.quality_scores.overall =
      some ((s.quality_scores.coverage + s.quality_scores.consistency +
             s.quality_scores.connectivity) / 3)

end SchemaEvo

/-! ## Theorems settling the claims -/

open GraphRag SchemaEvo

/-- C1.  The claim says that during path extension a compound OR filter
attached to the step target alias is applied, and a node failing it yields
no new binding.  The code refutes this: the path-extension filter loop
skips every compound filter (its dict has no `node` key, so
`filter_spec.get('node') != to_alias` fires, and the
`Handle compound filters later` branch is never realized), so the
collision-typed coverage node that fails the OR filter
`type = liability` still produces a binding: the executed query returns
`count = 1` with `c.type = [collision]`, where the claim demands an empty
binding set.  The first conjunct shows the skip holds for every compound
filter at either stage. -/
theorem C1_compound_or_filter_skipped_at_path_extension :
    (∀ evalOp a props op conds rest,
      nodeOk evalOp a props (Filter.compound op conds :: rest) =
        nodeOk evalOp a props rest)
    ∧ orFilterQuery.filters =
        [Filter.simple ⟨"p", "policy_number", "=", Value.str "P1001"⟩,
         Filter.compound "OR" [⟨"c", "type", "=", Value.str "liability"⟩]]
    ∧ (execute_graph_query collisionCoverageGraph orFilterQuery).count = 1
    ∧ dictGet (execute_graph_query collisionCoverageGraph orFilterQuery).properties
        "c.type" = some [Value.str "collision"] :=
  ⟨fun _ _ _ _ _ _ => rfl, by decide, by decide, by decide⟩

/-- C2.  The claim says a successful `add_relationship_type` preserves
every previously present `(name, source, target)` triple.  The code
refutes this: `schema_graph` is an `nx.DiGraph`, whose `add_edge`
replaces the unique edge of an existing `(source, target)` pair, so
adding `ALSO_COVERS : Policy → Coverage` to a schema already holding
`HAS_COVERAGE : Policy → Coverage` returns `true` yet silently displaces
the old triple. -/
theorem C2_added_relationship_displaces_same_pair_relationship :
    ((get_relationship_types policyCoverageSchema.schema_graph).map fun r =>
      (r.name, r.source, r.target)) = [("HAS_COVERAGE", "Policy", "Coverage")]
    ∧ (add_relationship_type policyCoverageSchema "ALSO_COVERS" "Policy"
        "Coverage" [] []).1 = true
    ∧ ((get_relationship_types
         (add_relationship_type policyCoverageSchema "ALSO_COVERS" "Policy"
           "Coverage" [] []).2.schema_graph).map fun r =>
        (r.name, r.source, r.target)) = [("ALSO_COVERS", "Policy", "Coverage")] :=
  ⟨by decide, by decide, by decide⟩

/-- C3.  A simple `=` filter on two strings is case-insensitive at start
nodes but case-sensitive at path-extended nodes: the filter loop keeps a
`liability` node against the value `Liability` at the start stage and
rejects it at the path stage; for every operator other than `=`, and for
`=` whenever the operands are not both strings, the two stages evaluate
identically. -/
theorem C3_equality_filter_case_asymmetry :
    (nodeOk evalOpStart "p" [("type", Value.str "liability")]
        [Filter.simple ⟨"p", "type", "=", Value.str "Liability"⟩] =
          Except.ok true
     ∧ nodeOk evalOpPath "p" [("type", Value.str "liability")]
        [Filter.simple ⟨"p", "type", "=", Value.str "Liability"⟩] =
          Except.ok false)
    ∧ (∀ op pv fv, op ≠ "=" → evalOpStart op pv fv = evalOpPath op pv fv)
    ∧ (∀ pv fv, ¬(pv.isStr = true ∧ fv.isStr = true) →
        evalOpStart "=" pv fv = evalOpPath "=" pv fv) := by
  refine ⟨⟨by rfl, by rfl⟩, ?_, ?_⟩
  · intro op pv fv hop
    simp [evalOpStart, evalOpPath, hop]
  · intro pv fv hs
    cases pv <;> cases fv <;> simp [Value.isStr] at hs ⊢ <;>
      simp [evalOpStart, evalOpPath]

/-- Witness for C3: the two stages agree on a concrete `!=` comparison and
on a concrete `=` comparison of mixed-type operands. -/
theorem C3_equality_filter_case_asymmetry_witness :
    evalOpStart "!=" (Value.int 1) (Value.int 2) =
      evalOpPath "!=" (Value.int 1) (Value.int 2)
    ∧ evalOpStart "=" (Value.int 1) (Value.str "x") =
      evalOpPath "=" (Value.int 1) (Value.str "x") :=
  ⟨C3_equality_filter_case_asymmetry.2.1 "!=" (Value.int 1) (Value.int 2)
      (by decide),
   C3_equality_filter_case_asymmetry.2.2 (Value.int 1) (Value.str "x")
      (by decide)⟩

/-- C4 counterexample.  The claim says the binding count after path step
`k+1` is at most the count after step `k`.  On `fanGraph`, `fanQuery` has
a non-empty path list, one binding survives step 1, and step 2 produces
TWO bindings (node `b1` has fan-out 2), so the count grows from 1 to 2. -/
theorem C4_binding_count_can_grow_counterexample :
    fanQuery.paths ≠ []
    ∧ (runSteps fanGraph fanQuery.filters (fanQuery.paths.take 1)
        fanBindings0).map List.length = Except.ok 1
    ∧ (runSteps fanGraph fanQuery.filters fanQuery.paths
        fanBindings0).map List.length = Except.ok 2
    ∧ ¬ ((2 : Nat) ≤ 1) :=
  ⟨by decide, by rfl, by rfl, by decide⟩

/-- C4 amended: one path step multiplies the binding count by at most the
per-binding fan-out — when every current binding contributes at most `B`
extensions, the binding count after the step is at most `B` times the
count before it (it is NOT in general bounded by the previous count
alone). -/
theorem C4_step_count_bounded_by_fanout :
    ∀ (g : Graph) (filters : List Filter) (step : PathSpec)
      (fa ta rt rd : String) (bs bs' : List Binding) (B : Nat),
      stepLoop g filters step fa ta rt rd bs = Except.ok bs' →
      (∀ b ∈ bs, stepFanOut g filters step fa ta rt rd b ≤ B) →
      bs'.length ≤ bs.length * B := by
  intro g filters step fa ta rt rd bs
  induction bs with
  | nil =>
    intro bs' B h _
    simp only [stepLoop] at h
    cases h
    simp
  | cons b rest ih =>
    intro bs' B h hB
    rw [stepLoop] at h
    cases he : bindingExtensions g filters step fa ta rt rd b with
    | error m => rw [he] at h; exact absurd h (by simp)
    | ok e =>
      cases hr : stepLoop g filters step fa ta rt rd rest with
      | error m => rw [he, hr] at h; exact absurd h (by simp)
      | ok r =>
        rw [he, hr] at h
        cases h
        have h1 : e.length ≤ B := by
          have := hB b (by simp)
          simpa [stepFanOut, he] using this
        have h2 : r.length ≤ rest.length * B :=
          ih r B hr (fun x hx => hB x (by simp [hx]))
        simp only [List.length_append, List.length_cons]
        calc e.length + r.length ≤ B + rest.length * B := by omega
          _ = (rest.length + 1) * B := by ring

/-- Witness for C4: the second step of `fanQuery` maps one binding with
fan-out 2 to two bindings, within the amended bound `1 × 2`. -/
theorem C4_step_count_bounded_by_fanout_witness :
    fanBindings2.length ≤ fanBindings1.length * 2 :=
  C4_step_count_bounded_by_fanout fanGraph fanQuery.filters fanStep2
    "y" "z" "R2" "outgoing" fanBindings1 fanBindings2 2 (by rfl) (by decide)

/-- C5 counterexample.  The claim says the exact text
`What is the status of claim CL4001?` matches at least one configured
`claim_status` pattern and classifies with method `pattern`.  In fact NO
pattern of ANY intent matches this text (the `status of` pattern requires
an article: `status\s+of\s+(?:my|the|a)\s+claim`), so the pattern vote is
empty, the pattern stage yields nothing, and `analyze_intent` falls
through to the embedding stage — whose `method` is `embedding` or
`default`, never `pattern`. -/
theorem C5_pattern_stage_rejects_scenario_text_counterexample :
    patternMatches "What is the status of claim CL4001?" = []
    ∧ analyze_intent_pattern_stage "What is the status of claim CL4001?" =
        none :=
  ⟨by decide, by decide⟩

/-- C5 amended: with the article present — the text
`What is the status of my claim CL4001?` — exactly one `claim_status`
pattern matches, the vote is won by `claim_status`, and the confidence is
`min(0.9, 0.7 + 0.1·1) = 0.8 ∈ [0.7, 0.9]` (stated in tenths). -/
theorem C5_claim_status_pattern_match_amended :
    patternMatches "What is the status of my claim CL4001?" =
      [("claim_status", 1)]
    ∧ analyze_intent_pattern_stage "What is the status of my claim CL4001?" =
        some ("claim_status", 8)
    ∧ 7 ≤ 8 ∧ 8 ≤ 9 :=
  ⟨by decide, by decide, by decide, by decide⟩

/-- C6.  On the scenario graph `Policy(P1001)` —HAS_COVERAGE→
`Coverage(type=liability, limit=500000)`, executing the query built by
`build_graph_query` for intent `coverage_inquiry` with
`policy_number = P1001` returns `count ≥ 1` and projects
`c.type = [liability]`. -/
theorem C6_coverage_scenario_returns_liability :
    1 ≤ (execute_graph_query coverageScenarioGraph coverageScenarioQuery).count
    ∧ dictGet (execute_graph_query coverageScenarioGraph
        coverageScenarioQuery).properties "c.type" =
      some [Value.str "liability"] :=
  ⟨by decide, by decide⟩

/-- C7.  `execute_graph_query` never propagates an internal fault: for
every query and graph it either returns the normal result of its body or
converts the fault message into `{count: 0, properties: {}, error: msg}`;
the conversion result indeed has count 0, empty properties and the
message; and a query whose path step lacks its `from` field concretely
exercises the fault branch. -/
theorem C7_executor_fault_converted_to_error_result :
    (∀ g q, (∃ r, execInner g q = Except.ok r ∧ execute_graph_query g q = r)
      ∨ (∃ m, execInner g q = Except.error m ∧
          execute_graph_query g q = errorResult m))
    ∧ (∀ m, (errorResult m).count = 0 ∧ (errorResult m).properties = []
        ∧ (errorResult m).error = some m)
    ∧ execute_graph_query coverageScenarioGraph badPathQuery =
        errorResult "KeyError: from" := by
  refine ⟨?_, fun m => ⟨rfl, rfl, rfl⟩, by decide⟩
  intro g q
  cases h : execInner g q with
  | ok r => exact Or.inl ⟨r, rfl, by simp [execute_graph_query, h]⟩
  | error m => exact Or.inr ⟨m, rfl, by simp [execute_graph_query, h]⟩

/-- C8.  Every successful schema mutation (`add_entity_type`,
`add_relationship_type`) recomputes and stores quality scores satisfying
`coverage = min(1, (entityCount/15 + relationshipCount/25)/2)` over the
post-mutation counts, and `overall` equal to the arithmetic mean of the
stored coverage, consistency and connectivity. -/
theorem C8_quality_scores_formula_after_mutation :
    (∀ (s : SchemaState) (name : String) (props : List (String × PropDef))
        (cons : Constraints),
      (add_entity_type s name props cons).1 = true →
      qualityScoresSpec (add_entity_type s name props cons).2)
    ∧ (∀ (s : SchemaState) (name src tgt : String)
        (props : List (String × PropDef)) (cons : Constraints),
      (add_relationship_type s name src tgt props cons).1 = true →
      qualityScoresSpec (add_relationship_type s name src tgt props cons).2) := by
  constructor
  · intro s name props cons hsucc
    unfold add_entity_type at hsucc ⊢
    by_cases hg : (get_entity_types s.schema_graph).contains name
    · rw [if_pos hg] at hsucc; exact absurd hsucc (by simp)
    · rw [if_neg hg] at hsucc ⊢
      exact ⟨rfl, rfl⟩
  · intro s name src tgt props cons hsucc
    unfold add_relationship_type at hsucc ⊢
    by_cases h1 : ¬ (get_entity_types s.schema_graph).contains src
    · rw [if_pos h1] at hsucc; exact absurd hsucc (by simp)
    · rw [if_neg h1] at hsucc ⊢
      by_cases h2 : ¬ (get_entity_types s.schema_graph).contains tgt
      · rw [if_pos h2] at hsucc; exact absurd hsucc (by simp)
      · rw [if_neg h2] at hsucc ⊢
        by_cases h3 : s.schema_graph.edges.any (fun e =>
            decide (e.1 = src ∧ e.2.1 = tgt ∧ e.2.2.name = name)) = true
        · rw [if_pos h3] at hsucc; exact absurd hsucc (by simp)
        · rw [if_neg h3] at hsucc ⊢
          exact ⟨rfl, rfl⟩

/-- Witness for C8: both mutations applied successfully to concrete
states satisfy the quality-score formulas. -/
theorem C8_quality_scores_formula_after_mutation_witness :
    qualityScoresSpec (add_entity_type ({} : SchemaState) "Policy" [] []).2
    ∧ qualityScoresSpec
        (add_relationship_type twoEntitySchema "HAS_COVERAGE" "Policy"
          "Coverage" [] []).2 :=
  ⟨C8_quality_scores_formula_after_mutation.1 {} "Policy" [] [] (by decide),
   C8_quality_scores_formula_after_mutation.2 twoEntitySchema "HAS_COVERAGE"
     "Policy" "Coverage" [] [] (by decide)⟩

/-- C9.  `analyze_instance_data` is advisory: for every schema state and
instance batch it leaves the schema graph, the version list, the quality
scores — indeed the whole state — unchanged. -/
theorem C9_analyze_instance_data_preserves_state :
    ∀ (s : SchemaState) (d : InstanceData),
      (analyze_instance_data s d).1.schema_graph = s.schema_graph
      ∧ (analyze_instance_data s d).1.schema_versions = s.schema_versions
      ∧ (analyze_instance_data s d).1.quality_scores = s.quality_scores
      ∧ (analyze_instance_data s d).1 = s :=
  fun _ _ => ⟨rfl, rfl, rfl, rfl⟩

/-- C10.  After every `update_query_history` call the history length is
`min(previous + 1, 10)` — in particular at most `max_history_length = 10`
— and the retained list is a suffix of the appended history, i.e. exactly
the most recent entries survive.  `process_query` mutates the history only
through this one call (line 456), so the bound holds after every
`process_query` as well. -/
theorem C10_query_history_bounded :
    ∀ (h : List QueryInfo) (q : QueryInfo),
      (update_query_history h q).length = min (h.length + 1) max_history_length
      ∧ (update_query_history h q).length ≤ max_history_length
      ∧ List.IsSuffix (update_query_history h q) (h ++ [q]) := by
  intro h q
  simp only [update_query_history, max_history_length]
  split
  case isTrue hc =>
    refine ⟨?_, ?_,
      ⟨(h ++ [q]).take ((h ++ [q]).length - 10), List.take_append_drop _ _⟩⟩
    · simp only [List.length_drop, List.length_append, List.length_cons,
        List.length_nil] at hc ⊢
      omega
    · simp only [List.length_drop, List.length_append, List.length_cons,
        List.length_nil] at hc ⊢
      omega
  case isFalse hc =>
    refine ⟨?_, ?_, List.suffix_rfl⟩
    · simp only [List.length_append, List.length_cons, List.length_nil] at hc ⊢
      omega
    · simp only [List.length_append, List.length_cons, List.length_nil] at hc ⊢
      omega
